import Mathlib

set_option linter.unusedVariables false

/-!
Verification of the BTP (Bluetooth Transport Protocol) session core of
matter.js: a shallow embedding of `BtpSessionHandler`
(packages/matter.js/src/ble/BtpSessionHandler.ts) together with a model of
the `BtpCodec` wire codec, and theorems settling the specification claims
about handshake negotiation, sequence/ack validation, windowing, reassembly,
error propagation and session teardown.

Modelling conventions:
* JavaScript numbers are embedded as `Nat` where they stay non-negative and
  as `Int` where the source initialises them to `-1`
  (`prevIncomingAckNumber`, `prevAckedSequenceNumber`).
* The three injected callbacks (`writeBleCallback`, `disconnectBleCallback`,
  `handleMatterMessagePayload`) are modelled as effect logs inside the
  session state: `writes` records every buffer passed to the BLE transport,
  `delivered` records every reassembled Matter message handed upward and
  `disconnectCalls` counts transport disconnect requests.
* The two timers are modelled by their observable `isRunning` flag.
* Thrown JS exceptions are modelled by returning `σ × Option BtpError`:
  the state component keeps all mutations performed before the throw,
  exactly as the mutable JS object does.
-/

/-- Error classes of the BTP stack.  `protocolError` corresponds to the class
`BtpProtocolError` (the codec errors are of this class as well, as the
session-handler tests that swallow them show), `flowError` to `BtpFlowError`. -/
inductive BtpError where
  | protocolError (msg : String)
  | flowError (msg : String)
deriving DecidableEq, Repr

/-- Mirrors the `error instanceof BtpProtocolError` test of the catch block
in `handleIncomingBleData`. -/
def BtpError.isProtocol : BtpError → Bool
  | .protocolError _ => true
  | .flowError _ => false

/-- Header flag set of a decoded BTP packet (`BtpPacket.header`). -/
structure BtpHeader where
  isHandshakeRequest : Bool
  hasManagementOpcode : Bool
  hasAckNumber : Bool
  isBeginningSegment : Bool
  isContinuingSegment : Bool
  isEndingSegment : Bool
deriving DecidableEq, Repr

/-- Payload part of a decoded BTP packet (`BtpPacket.payload`). -/
structure BtpPacketPayload where
  ackNumber : Option Nat
  sequenceNumber : Nat
  messageLength : Option Nat
  segmentPayload : List Nat
deriving DecidableEq, Repr

/-- A decoded BTP data packet. -/
structure BtpPacket where
  header : BtpHeader
  payload : BtpPacketPayload
deriving DecidableEq, Repr

/-- Decoded BTP handshake request. -/
structure BtpHandshakeRequest where
  versions : List Nat
  attMtu : Nat
  clientWindowSize : Nat
deriving DecidableEq, Repr

/-- BTP handshake response content. -/
structure BtpHandshakeResponse where
  version : Nat
  attMtu : Nat
  windowSize : Nat
deriving DecidableEq, Repr

def SUPPORTED_BTP_VERSIONS : List Nat := [4]
def MINIMUM_ATT_MTU : Nat := 23
def MAXIMUM_BTP_MTU : Nat := 247
def MAXIMUM_WINDOW_SIZE : Nat := 255

/-- Modelled from the spec: `BtpCodec.decodeBtpHandshakeRequest` is missing
from the sources (only its tests are present).  Spec layout (9 bytes):
`0x65 0x6C` magic and management opcode, 4 bytes of packed version nibbles
(zero nibble = absent), 2 bytes attMtu little endian, 1 byte window size;
rejected on wrong magic, wrong opcode or zero valid versions.  The byte
examples and error messages follow the codec tests in
test/codec/BtpTest.ts. -/
def decodeBtpHandshakeRequest (data : List Nat) : Except BtpError BtpHandshakeRequest :=
  match data with
  | [header, opcode, v0, v1, v2, v3, mtuLow, mtuHigh, window] =>
    if header ≠ 0x65 then
      .error (.protocolError "BTPHandshake Request Headers is incorrect")
    else if opcode ≠ 0x6C then
      .error (.protocolError "Management Opcode for BTPHandshake Request is incorrect")
    else
      let versions := ([v0, v1, v2, v3].flatMap fun b => [b / 16, b % 16]).filter (· ≠ 0)
      if versions = [] then
        .error (.protocolError "No valid version provided")
      else
        .ok ⟨versions, mtuLow + 256 * mtuHigh, window⟩
  | _ => .error (.protocolError "Unexpected end of data")

/-- Modelled from the spec: `BtpCodec.encodeBtpHandshakeResponse` is missing
from the sources.  Spec layout (6 bytes): `0x65 0x6C` magic, chosen version,
2 bytes attMtu little endian, 1 byte window size. -/
def encodeBtpHandshakeResponse (r : BtpHandshakeResponse) : List Nat :=
  [0x65, 0x6C, r.version, r.attMtu % 256, r.attMtu / 256, r.windowSize]

/-- Reading the optional ack-number byte during packet decode. -/
def readAckField (hasAck : Bool) (rest : List Nat) : Except BtpError (Option Nat × List Nat) :=
  if hasAck then
    match rest with
    | a :: rest => .ok (some a, rest)
    | [] => .error (.protocolError "Unexpected end of data")
  else .ok (none, rest)

/-- Modelled from the spec: `BtpCodec.decodeBtpPacket` is missing from the
sources.  Field order per the spec wire-format table: flag byte,
(ack number iff `hasAckNumber`), sequence number, (2-byte little-endian
message length iff `isBeginningSegment`), segment payload.  Flag bits per
the table and the codec tests: bit0 begin, bit1 continue, bit2 end,
bit3 ack, bit5 management opcode, bit6 handshake; a set management-opcode
bit is rejected by the decoder. -/
def packetHeaderOfFlags (flags : Nat) : BtpHeader :=
  { isHandshakeRequest := flags.testBit 6
    hasManagementOpcode := flags.testBit 5
    hasAckNumber := flags.testBit 3
    isBeginningSegment := flags.testBit 0
    isContinuingSegment := flags.testBit 1
    isEndingSegment := flags.testBit 2 }

def decodeBtpPacket (data : List Nat) : Except BtpError BtpPacket :=
  match data with
  | [] => .error (.protocolError "Unexpected end of data")
  | flags :: rest =>
    let header := packetHeaderOfFlags flags
    if header.hasManagementOpcode then
      .error (.protocolError "Management Opcode for BTPHandshake Request is not expected")
    else
      match readAckField header.hasAckNumber rest with
      | .error e => .error e
      | .ok (ackNumber, rest) =>
        match rest with
        | [] => .error (.protocolError "Unexpected end of data")
        | seq :: rest =>
          if header.isBeginningSegment then
            match rest with
            | lenLow :: lenHigh :: rest =>
              .ok ⟨header, ⟨ackNumber, seq, some (lenLow + 256 * lenHigh), rest⟩⟩
            | _ => .error (.protocolError "Unexpected end of data")
          else
            .ok ⟨header, ⟨ackNumber, seq, none, rest⟩⟩

/-- Modelled from the spec: `BtpCodec.encodeBtpPacket` is missing from the
sources.  Inverse of `decodeBtpPacket`; the flag/field consistency checks
(`hasAckNumber` iff ack present, `isBeginningSegment` iff message length
present) follow the codec tests. -/
def encodeBtpPacket (p : BtpPacket) : Except BtpError (List Nat) :=
  let flags : Nat :=
    (if p.header.isBeginningSegment then 1 else 0) +
    (if p.header.isContinuingSegment then 2 else 0) +
    (if p.header.isEndingSegment then 4 else 0) +
    (if p.header.hasAckNumber then 8 else 0) +
    (if p.header.hasManagementOpcode then 32 else 0) +
    (if p.header.isHandshakeRequest then 64 else 0)
  match p.header.hasAckNumber, p.payload.ackNumber with
  | false, some _ => .error (.protocolError "Ack number should not be set because header flag is not set")
  | true, none => .error (.protocolError "Ack number needs to be set because header flag is set")
  | _, ack =>
    match p.header.isBeginningSegment, p.payload.messageLength with
    | false, some _ => .error (.protocolError "Message Length should not be set because the package is not a beginning segment")
    | true, none => .error (.protocolError "Message Length needs to be set because paket is a beginning segment")
    | _, len =>
      .ok (flags :: (ack.toList ++ [p.payload.sequenceNumber] ++
        (match len with | some l => [l % 256, l / 256] | none => []) ++
        p.payload.segmentPayload))

/-- The session state of `BtpSessionHandler`, with the injected callbacks
replaced by effect logs (`writes`, `delivered`, `disconnectCalls`) and the
timers by their `isRunning` flags.  Outbound queue entries are the
`DataReader` cursors: the full message plus the current read offset. -/
structure BtpSessionHandler where
  fragmentSize : Nat
  clientWindowSize : Nat
  currentIncomingSegmentedMsgLength : Option Nat
  currentIncomingSegmentedPayload : Option (List Nat)
  prevIncomingSequenceNumber : Nat
  prevIncomingAckNumber : Int
  ackReceiveTimerRunning : Bool
  sequenceNumber : Nat
  prevAckedSequenceNumber : Int
  queuedOutgoingMatterMessages : List (List Nat × Nat)
  sendInProgress : Bool
  sendAckTimerRunning : Bool
  isActive : Bool
  writes : List (List Nat)
  delivered : List (List Nat)
  disconnectCalls : Nat
deriving DecidableEq, Repr

/-- The constructor of `BtpSessionHandler`: field initialisers plus
`this.ackReceiveTimer.start()`; rejects any BTP version other than 4. -/
def BtpSessionHandler.mk' (btpVersion fragmentSize clientWindowSize : Nat) :
    Except BtpError BtpSessionHandler :=
  if btpVersion ≠ 4 then
    .error (.protocolError "Unsupported BTP version")
  else
    .ok
      { fragmentSize := fragmentSize
        clientWindowSize := clientWindowSize
        currentIncomingSegmentedMsgLength := none
        currentIncomingSegmentedPayload := none
        prevIncomingSequenceNumber := 255
        prevIncomingAckNumber := -1
        ackReceiveTimerRunning := true
        sequenceNumber := 0
        prevAckedSequenceNumber := -1
        queuedOutgoingMatterMessages := []
        sendInProgress := false
        sendAckTimerRunning := false
        isActive := true
        writes := []
        delivered := []
        disconnectCalls := 0 }

/-- `BtpSessionHandler.close`: stop both timers, then exactly when the
session is still active clear `isActive` and invoke the BLE disconnect
callback. -/
def BtpSessionHandler.close (s : BtpSessionHandler) : BtpSessionHandler :=
  let s := { s with ackReceiveTimerRunning := false, sendAckTimerRunning := false }
  if s.isActive then
    { s with isActive := false, disconnectCalls := s.disconnectCalls + 1 }
  else s

/-- The ack-validation block of `handleIncomingBleData` (guarded by
`hasAckNumber && ackNumber !== undefined`): an ack is rejected when
`ackNumber <= prevIncomingAckNumber || ackNumber > sequenceNumber`;
otherwise the ack-receive timer is stopped, `prevIncomingAckNumber` is set
and the timer restarted when `ackNumber < sequenceNumber`. -/
def BtpSessionHandler.ackStep (s : BtpSessionHandler) (p : BtpPacket) :
    BtpSessionHandler × Option BtpError :=
  match p.header.hasAckNumber, p.payload.ackNumber with
  | true, some ackNumber =>
    if (ackNumber : Int) ≤ s.prevIncomingAckNumber ∨ ackNumber > s.sequenceNumber then
      (s, some (.protocolError "Invalid Ack Number"))
    else
      let s := { s with ackReceiveTimerRunning := false,
                        prevIncomingAckNumber := (ackNumber : Int) }
      let s := if ackNumber < s.sequenceNumber then
                 { s with ackReceiveTimerRunning := true }
               else s
      (s, none)
  | _, _ => (s, none)

/-- The segment-collection part of the reassembly block of
`handleIncomingBleData`: a beginning segment opens the buffer (rejected
when one is already open), a continuing or ending segment appends its
non-empty payload to the open buffer. -/
def BtpSessionHandler.collectSegment (s : BtpSessionHandler) (p : BtpPacket) :
    Except BtpError BtpSessionHandler :=
  if p.header.isBeginningSegment then
    match s.currentIncomingSegmentedPayload with
    | some _ => .error (.protocolError "BTP message flow error! New beginning packet was received without previous message being completed.")
    | none => .ok { s with
        currentIncomingSegmentedMsgLength := p.payload.messageLength
        currentIncomingSegmentedPayload := some p.payload.segmentPayload }
  else if p.header.isContinuingSegment ∨ p.header.isEndingSegment then
    match s.currentIncomingSegmentedPayload with
    | none => .error (.protocolError "BTP Continuing or ending packet received without beginning packet.")
    | some current =>
      if p.payload.segmentPayload.length = 0 then
        .error (.protocolError "BTP Continuing or ending packet received without payload.")
      else
        .ok { s with currentIncomingSegmentedPayload := some (current ++ p.payload.segmentPayload) }
  else .ok s

/-- The ending-segment handling of `handleIncomingBleData`: length check
against `messageLength`, delivery of the completed buffer upward and reset
of the reassembly state. -/
def BtpSessionHandler.finishSegment (s : BtpSessionHandler) (p : BtpPacket) :
    BtpSessionHandler × Option BtpError :=
  if p.header.isEndingSegment then
    match s.currentIncomingSegmentedMsgLength, s.currentIncomingSegmentedPayload with
    | some msgLength, some buffer =>
      if buffer.length ≠ msgLength then
        (s, some (.protocolError "BTP packet payload length does not match message length"))
      else
        ({ s with currentIncomingSegmentedMsgLength := none
                  currentIncomingSegmentedPayload := none
                  delivered := s.delivered ++ [buffer] }, none)
    | _, _ => (s, some (.protocolError "BTP beginning packet missing but ending packet received."))
  else (s, none)

def BtpSessionHandler.reassemblyStep (s : BtpSessionHandler) (p : BtpPacket) :
    BtpSessionHandler × Option BtpError :=
  match s.collectSegment p with
  | .error e => (s, some e)
  | .ok s => s.finishSegment p

/-- Ack handling followed by reassembly, the tail of the packet processing
of `handleIncomingBleData`: an error thrown by the ack block skips the
reassembly block. -/
def BtpSessionHandler.ackThenReassembly (s : BtpSessionHandler) (p : BtpPacket) :
    BtpSessionHandler × Option BtpError :=
  match s.ackStep p with
  | (s, some e) => (s, some e)
  | (s, none) => s.reassemblyStep p

/-- The semantic checks of `handleIncomingBleData` on a decoded packet, in
source order: control-frame check, empty-frame check, sequence check and
`prevIncomingSequenceNumber` update, send-ack timer start, ack handling,
reassembly.  The state component of the result keeps every mutation
performed before a thrown error, like the mutable JS object does. -/
def BtpSessionHandler.processPacket (s : BtpSessionHandler) (p : BtpPacket) :
    BtpSessionHandler × Option BtpError :=
  if p.header.isHandshakeRequest ∨ p.header.hasManagementOpcode then
    (s, some (.protocolError "BTP packet must not be a handshake request or have a management opcode."))
  else if p.payload.segmentPayload.length = 0 ∧ p.header.hasAckNumber = false then
    (s, some (.protocolError "BTP packet must have a segment payload or an ack number."))
  else if p.payload.sequenceNumber ≠ (s.prevIncomingSequenceNumber + 1) % 256 then
    (s, some (.protocolError "Expected and actual BTP packets sequence number does not match"))
  else
    let s := { s with prevIncomingSequenceNumber := p.payload.sequenceNumber }
    let s := if s.sendAckTimerRunning then s else { s with sendAckTimerRunning := true }
    s.ackThenReassembly p

/-- The body of the `try` block of `handleIncomingBleData`: oversize check
(tolerating up to 3 extra bytes), decode, then the semantic checks. -/
def BtpSessionHandler.handleIncomingInner (s : BtpSessionHandler) (data : List Nat) :
    BtpSessionHandler × Option BtpError :=
  if data.length > s.fragmentSize ∧ data.length > s.fragmentSize + 3 then
    (s, some (.protocolError "Received data exceeds fragment size"))
  else
    match decodeBtpPacket data with
    | .error e => (s, some e)
    | .ok p => s.processPacket p

/-- `BtpSessionHandler.handleIncomingBleData`: runs the `try` body; on any
error the session is closed and only a non-`BtpProtocolError` error is
rethrown to the caller (the `Option BtpError` component of the result). -/
def BtpSessionHandler.handleIncomingBleData (s : BtpSessionHandler) (data : List Nat) :
    BtpSessionHandler × Option BtpError :=
  match s.handleIncomingInner data with
  | (s, none) => (s, none)
  | (s, some e) => (s.close, if e.isProtocol then none else some e)

/-- `getNextSequenceNumber`: increment and wrap from 255 to 0, returning the
new value. -/
def nextSequenceNumber (seq : Nat) : Nat :=
  if seq + 1 > 255 then 0 else seq + 1

/-- The tail of one send-loop iteration, after the packet has been
encoded: a codec error is thrown; otherwise the packet is written to the
transport, the ack-receive timer is started if needed, and the head cursor
is popped (ending segment) or advanced by the number of bytes read. -/
def sendFinish (s : BtpSessionHandler) (message : List Nat) (offset : Nat)
    (restQueue : List (List Nat × Nat)) (isEndingSegment : Bool) (available : Int)
    (encoded : Except BtpError (List Nat)) : BtpSessionHandler × Option BtpError :=
  match encoded with
  | .error e => (s, some e)
  | .ok packet =>
    let s := { s with writes := s.writes ++ [packet] }
    let s := if s.ackReceiveTimerRunning then s else { s with ackReceiveTimerRunning := true }
    let s :=
      if isEndingSegment then
        { s with queuedOutgoingMatterMessages := restQueue }
      else
        { s with queuedOutgoingMatterMessages := (message, offset + available.toNat) :: restQueue }
    (s, none)

/-- The head of one send-loop iteration on the cursor `(message, offset)`:
piggyback-ack determination, begin/end flag computation from the cursor,
header-length arithmetic, segment read and packet construction.  Returns
the updated session, the packet to encode, the ending-segment flag and the
number of payload bytes available in the fragment. -/
def sendPrep (s : BtpSessionHandler) (message : List Nat) (offset : Nat) :
    BtpSessionHandler × BtpPacket × Bool × Int :=
  let remainingMessageLength := message.length - offset
  let hasAckNumber : Bool := (s.prevIncomingSequenceNumber : Int) > s.prevAckedSequenceNumber
  let s :=
    if hasAckNumber then
      { s with prevAckedSequenceNumber := (s.prevIncomingSequenceNumber : Int)
               sendAckTimerRunning := false }
    else s
  let isBeginningSegment : Bool := remainingMessageLength = message.length
  let btpHeaderLength := 2 + (if isBeginningSegment then 2 else 0) + (if hasAckNumber then 1 else 0)
  let available : Int := (s.fragmentSize : Int) - (btpHeaderLength : Int)
  let isEndingSegment : Bool := (remainingMessageLength : Int) ≤ available
  let seq := nextSequenceNumber s.sequenceNumber
  let s := { s with sequenceNumber := seq }
  let segmentPayload := (message.drop offset).take available.toNat
  let btpPacket : BtpPacket :=
    { header :=
        { isHandshakeRequest := false
          hasManagementOpcode := false
          hasAckNumber := hasAckNumber
          isBeginningSegment := isBeginningSegment
          isContinuingSegment := !isBeginningSegment
          isEndingSegment := isEndingSegment }
      payload :=
        { ackNumber := if hasAckNumber then some s.prevIncomingSequenceNumber else none
          sequenceNumber := seq
          messageLength := if isBeginningSegment then some remainingMessageLength else none
          segmentPayload := segmentPayload } }
  (s, btpPacket, isEndingSegment, available)

/-- One iteration of the `while` loop of `processSendQueue` on the head
cursor `(message, offset)` with remaining queue `restQueue`: prepare and
encode the packet, then write it out and update the queue. -/
def sendIteration (s : BtpSessionHandler) (message : List Nat) (offset : Nat)
    (restQueue : List (List Nat × Nat)) : BtpSessionHandler × Option BtpError :=
  match sendPrep s message offset with
  | (s, btpPacket, isEndingSegment, available) =>
    sendFinish s message offset restQueue isEndingSegment available (encodeBtpPacket btpPacket)

/-- The `while` loop of `processSendQueue`, with explicit fuel (the JS loop
terminates on every reachable state; fuel exhaustion returns the current
state).  After each iteration the loop breaks when a transport/codec error
was thrown or the window check
`sequenceNumber − prevIncomingAckNumber > clientWindowSize − 1` fires. -/
def sendLoop : Nat → BtpSessionHandler → BtpSessionHandler × Option BtpError
  | 0, s => (s, none)
  | fuel + 1, s =>
    match s.queuedOutgoingMatterMessages with
    | [] => (s, none)
    | (message, offset) :: restQueue =>
      match sendIteration s message offset restQueue with
      | (s, some e) => (s, some e)
      | (s, none) =>
        if (s.sequenceNumber : Int) - s.prevIncomingAckNumber > (s.clientWindowSize : Int) - 1 then
          (s, none)
        else
          sendLoop fuel s

/-- Fuel sufficient for every reachable run of the send loop: total
remaining queued bytes, one iteration per queued message, plus a full
sequence-number cycle with window slack. -/
def BtpSessionHandler.sendQueueFuel (s : BtpSessionHandler) : Nat :=
  s.queuedOutgoingMatterMessages.foldl (fun acc m => acc + (m.1.length - m.2) + 1) 0 +
    512 + s.clientWindowSize

/-- `processSendQueue`: returns unchanged when a send is already in
progress, the window is exhausted (`sequenceNumber − prevIncomingAckNumber
> clientWindowSize − 1`) or the queue is empty; otherwise sets the
re-entrancy guard, runs the send loop and clears the guard (a thrown
transport/codec error leaves the guard set, as in the source). -/
def BtpSessionHandler.processSendQueue (s : BtpSessionHandler) :
    BtpSessionHandler × Option BtpError :=
  if s.sendInProgress then (s, none)
  else if (s.sequenceNumber : Int) - s.prevIncomingAckNumber > (s.clientWindowSize : Int) - 1 then
    (s, none)
  else if s.queuedOutgoingMatterMessages = [] then (s, none)
  else
    match sendLoop s.sendQueueFuel { s with sendInProgress := true } with
    | (s, some e) => (s, some e)
    | (s, none) => ({ s with sendInProgress := false }, none)

/-- `sendMatterMessage`: reject the empty message with a `BtpFlowError`
(without touching the session), otherwise wrap the message in a cursor,
append it to the outbound queue and run `processSendQueue`. -/
def BtpSessionHandler.sendMatterMessage (s : BtpSessionHandler) (data : List Nat) :
    BtpSessionHandler × Option BtpError :=
  if data.length = 0 then
    (s, some (.flowError "BTP packet must not be empty"))
  else
    BtpSessionHandler.processSendQueue
      { s with queuedOutgoingMatterMessages := s.queuedOutgoingMatterMessages ++ [(data, 0)] }

deriving instance DecidableEq for Except

/-- Result of the handshake factory: how often the BLE disconnect callback
fired during negotiation, and either the failure or the constructed session
together with the handshake-response bytes written to the transport. -/
structure HandshakeOutcome where
  disconnectCalls : Nat
  result : Except BtpError (BtpSessionHandler × List Nat)
deriving DecidableEq, Repr

/-- The `attMtu` selection of `createFromHandshakeRequest`: start from the
minimum ATT MTU; when `maxDataSize` is given add the 3-byte GATT PDU
header, and when that exceeds the minimum cap it by the peer MTU (unless
the peer proposed at most the minimum) and by `MAXIMUM_BTP_MTU`. -/
def negotiateAttMtu (maxDataSize : Option Nat) (handshakeMtu : Nat) : Nat :=
  match maxDataSize with
  | none => MINIMUM_ATT_MTU
  | some maxDataSize =>
    let maxDataSize := maxDataSize + 3
    if maxDataSize > MINIMUM_ATT_MTU then
      if handshakeMtu ≤ MINIMUM_ATT_MTU then
        min maxDataSize MAXIMUM_BTP_MTU
      else
        min handshakeMtu (min maxDataSize MAXIMUM_BTP_MTU)
    else MINIMUM_ATT_MTU

/-- `BtpSessionHandler.createFromHandshakeRequest`: decode the request,
pick the highest supported version also offered by the peer (disconnecting
and failing when there is none), negotiate `attMtu` (adding the 3-byte GATT
PDU header to `maxDataSize` and capping by the peer MTU and
`MAXIMUM_BTP_MTU`), derive `fragmentSize` and window size, encode the
response, construct the session and write the response to the transport
before returning it.  `writeResult` is the outcome of the `writeBleCallback`
promise; its failure propagates, so the caller never receives the session. -/
def createFromHandshakeRequest (maxDataSize : Option Nat)
    (handshakeRequestPayload : List Nat)
    (writeResult : Except BtpError Unit) : HandshakeOutcome :=
  match decodeBtpHandshakeRequest handshakeRequestPayload with
  | .error e => ⟨0, .error e⟩
  | .ok handshakeRequest =>
    match SUPPORTED_BTP_VERSIONS.find? (fun v => handshakeRequest.versions.contains v) with
    | none => ⟨1, .error (.protocolError "No supported BTP version found")⟩
    | some version =>
      let attMtu := negotiateAttMtu maxDataSize handshakeRequest.attMtu
      let fragmentSize := attMtu - 3
      let windowSize := min MAXIMUM_WINDOW_SIZE handshakeRequest.clientWindowSize
      let handshakeResponse := encodeBtpHandshakeResponse ⟨version, attMtu, windowSize⟩
      match BtpSessionHandler.mk' version fragmentSize windowSize with
      | .error e => ⟨0, .error e⟩
      | .ok btpSession =>
        match writeResult with
        | .error e => ⟨0, .error e⟩
        | .ok _ => ⟨0, .ok (btpSession, handshakeResponse)⟩

/-- C7: `close()` stops both timers on every call; it leaves the session
inactive; the disconnect callback fires exactly when the session was still
active (so exactly once over a lifetime); and a second `close()` changes
nothing. -/
theorem close_stops_timers_and_disconnects_once (s : BtpSessionHandler) :
    (s.close.ackReceiveTimerRunning = false ∧ s.close.sendAckTimerRunning = false) ∧
    s.close.isActive = false ∧
    s.close.disconnectCalls = s.disconnectCalls + (if s.isActive then 1 else 0) ∧
    s.close.close = s.close := by
  unfold BtpSessionHandler.close
  by_cases h : s.isActive <;> simp [h]

/-- The field values produced by the `BtpSessionHandler` constructor for the
(only accepted) BTP version 4. -/
def initialSession (fragmentSize clientWindowSize : Nat) : BtpSessionHandler :=
  { fragmentSize := fragmentSize
    clientWindowSize := clientWindowSize
    currentIncomingSegmentedMsgLength := none
    currentIncomingSegmentedPayload := none
    prevIncomingSequenceNumber := 255
    prevIncomingAckNumber := -1
    ackReceiveTimerRunning := true
    sequenceNumber := 0
    prevAckedSequenceNumber := -1
    queuedOutgoingMatterMessages := []
    sendInProgress := false
    sendAckTimerRunning := false
    isActive := true
    writes := []
    delivered := []
    disconnectCalls := 0 }

theorem mk_version4 (fragmentSize clientWindowSize : Nat) :
    BtpSessionHandler.mk' 4 fragmentSize clientWindowSize =
      .ok (initialSession fragmentSize clientWindowSize) := rfl

/-- The handshake request of the repository test `handles a correct
Handshake`: versions = [4], attMtu = 185, clientWindowSize = 6. -/
def handshakeRequestBytes : List Nat := [0x65, 0x6C, 0x04, 0x00, 0x00, 0x00, 0xb9, 0x00, 0x06]

/-- C1: on the handshake request `65 6c 04 00 00 00 b9 00 06` with
`maxDataSize = 100`, the code computes `attMtu = min(185, 100 + 3, 247) =
103` (so `fragmentSize = 100`) and writes the response
`65 6c 04 67 00 06`, while the claim — and the repository test it comes
from — expect `attMtu = 100` and response `65 6c 04 64 00 06`; the
negotiated window size 6 does match.  This theorem evaluates the code at
the failing input. -/
theorem createFromHandshakeRequest_diverges_from_test :
    ((createFromHandshakeRequest (some 100) handshakeRequestBytes (.ok ())).result.map
        (fun r => (r.1.fragmentSize + 3, r.1.clientWindowSize, r.2))
      = .ok (103, 6, [0x65, 0x6C, 0x04, 0x67, 0x00, 0x06])) ∧
    ([0x65, 0x6C, 0x04, 0x67, 0x00, 0x06] : List Nat) ≠
      [0x65, 0x6C, 0x04, 0x64, 0x00, 0x06] := by decide


theorem readAckField_err_protocol (b : Bool) (r : List Nat) (e : BtpError)
    (h : readAckField b r = .error e) : e.isProtocol = true := by
  unfold readAckField at h
  repeat' split at h
  all_goals first
    | (simp only [Except.error.injEq] at h; subst h; rfl)
    | simp_all

theorem decodeBtpPacket_err_protocol (data : List Nat) (e : BtpError)
    (h : decodeBtpPacket data = .error e) : e.isProtocol = true := by
  unfold decodeBtpPacket at h
  split at h
  · simp only [Except.error.injEq] at h; subst h; rfl
  · simp only [] at h
    split at h
    · simp only [Except.error.injEq] at h; subst h; rfl
    · split at h
      · next e' heq =>
          simp only [Except.error.injEq] at h; subst h
          exact readAckField_err_protocol _ _ _ heq
      · split at h
        · simp only [Except.error.injEq] at h; subst h; rfl
        · split at h
          · split at h
            · exact absurd h (by simp)
            · simp only [Except.error.injEq] at h; subst h; rfl
          · exact absurd h (by simp)

theorem ackStep_err_protocol (s : BtpSessionHandler) (p : BtpPacket) (e : BtpError)
    (h : (s.ackStep p).2 = some e) : e.isProtocol = true := by
  unfold BtpSessionHandler.ackStep at h
  repeat' split at h
  all_goals simp only [Option.some.injEq] at h
  all_goals try subst h
  all_goals first | rfl | simp_all

theorem collectSegment_err_protocol (s : BtpSessionHandler) (p : BtpPacket) (e : BtpError)
    (h : s.collectSegment p = .error e) : e.isProtocol = true := by
  unfold BtpSessionHandler.collectSegment at h
  repeat' split at h
  all_goals try simp only [Except.error.injEq] at h
  all_goals try subst h
  all_goals first | rfl | simp_all

theorem finishSegment_err_protocol (s : BtpSessionHandler) (p : BtpPacket) (e : BtpError)
    (h : (s.finishSegment p).2 = some e) : e.isProtocol = true := by
  unfold BtpSessionHandler.finishSegment at h
  repeat' split at h
  all_goals try simp only [Option.some.injEq] at h
  all_goals try subst h
  all_goals first | rfl | simp_all

theorem reassemblyStep_err_protocol (s : BtpSessionHandler) (p : BtpPacket) (e : BtpError)
    (h : (s.reassemblyStep p).2 = some e) : e.isProtocol = true := by
  unfold BtpSessionHandler.reassemblyStep at h
  split at h
  · next e2 heq =>
      simp only [Option.some.injEq] at h
      subst h
      exact collectSegment_err_protocol _ _ _ heq
  · next s2 heq =>
      exact finishSegment_err_protocol _ _ _ h

theorem ackThenReassembly_err_protocol (s : BtpSessionHandler) (p : BtpPacket) (e : BtpError)
    (h : (s.ackThenReassembly p).2 = some e) : e.isProtocol = true := by
  unfold BtpSessionHandler.ackThenReassembly at h
  rcases hA : s.ackStep p with ⟨s2, oe⟩
  rw [hA] at h
  rcases oe with _ | e2
  · exact reassemblyStep_err_protocol _ _ _ h
  · simp only [Option.some.injEq] at h
    subst h
    exact ackStep_err_protocol _ _ _ (by rw [hA])

theorem processPacket_err_protocol (s : BtpSessionHandler) (p : BtpPacket) (e : BtpError)
    (h : (s.processPacket p).2 = some e) : e.isProtocol = true := by
  unfold BtpSessionHandler.processPacket at h
  repeat' split at h
  all_goals try simp only [Option.some.injEq] at h
  all_goals try subst h
  all_goals first | rfl | exact ackThenReassembly_err_protocol _ _ _ h

theorem handleIncomingInner_err_protocol (s : BtpSessionHandler) (data : List Nat)
    (s2 : BtpSessionHandler) (e : BtpError)
    (h : s.handleIncomingInner data = (s2, some e)) : e.isProtocol = true := by
  unfold BtpSessionHandler.handleIncomingInner at h
  repeat' split at h
  · simp only [Prod.mk.injEq, Option.some.injEq] at h
    rcases h with ⟨-, h⟩
    subst h; rfl
  · next e2 heq =>
      simp only [Prod.mk.injEq, Option.some.injEq] at h
      rcases h with ⟨-, h⟩
      subst h
      exact decodeBtpPacket_err_protocol _ _ heq
  · next pk heq =>
      exact processPacket_err_protocol _ _ _ (by rw [h])

theorem ackStep_preserves (s : BtpSessionHandler) (p : BtpPacket) :
    (s.ackStep p).1.writes = s.writes ∧
    (s.ackStep p).1.queuedOutgoingMatterMessages = s.queuedOutgoingMatterMessages ∧
    (s.ackStep p).1.delivered = s.delivered ∧
    (s.ackStep p).1.prevIncomingSequenceNumber = s.prevIncomingSequenceNumber ∧
    (s.ackStep p).1.sequenceNumber = s.sequenceNumber ∧
    (s.ackStep p).1.isActive = s.isActive ∧
    (s.ackStep p).1.sendAckTimerRunning = s.sendAckTimerRunning ∧
    (s.ackStep p).1.currentIncomingSegmentedPayload = s.currentIncomingSegmentedPayload ∧
    (s.ackStep p).1.currentIncomingSegmentedMsgLength = s.currentIncomingSegmentedMsgLength ∧
    (s.ackStep p).1.fragmentSize = s.fragmentSize ∧
    (s.ackStep p).1.clientWindowSize = s.clientWindowSize ∧
    (s.ackStep p).1.disconnectCalls = s.disconnectCalls ∧
    (s.ackStep p).1.sendInProgress = s.sendInProgress ∧
    (s.ackStep p).1.prevAckedSequenceNumber = s.prevAckedSequenceNumber := by
  unfold BtpSessionHandler.ackStep
  repeat' split <;> simp

theorem collectSegment_ok_preserves (s : BtpSessionHandler) (p : BtpPacket)
    (s2 : BtpSessionHandler) (h : s.collectSegment p = .ok s2) :
    s2.writes = s.writes ∧
    s2.queuedOutgoingMatterMessages = s.queuedOutgoingMatterMessages ∧
    s2.delivered = s.delivered ∧
    s2.prevIncomingSequenceNumber = s.prevIncomingSequenceNumber ∧
    s2.sequenceNumber = s.sequenceNumber ∧
    s2.isActive = s.isActive ∧
    s2.sendAckTimerRunning = s.sendAckTimerRunning ∧
    s2.ackReceiveTimerRunning = s.ackReceiveTimerRunning ∧
    s2.prevIncomingAckNumber = s.prevIncomingAckNumber ∧
    s2.fragmentSize = s.fragmentSize ∧
    s2.clientWindowSize = s.clientWindowSize ∧
    s2.disconnectCalls = s.disconnectCalls ∧
    s2.sendInProgress = s.sendInProgress ∧
    s2.prevAckedSequenceNumber = s.prevAckedSequenceNumber := by
  unfold BtpSessionHandler.collectSegment at h
  repeat' split at h
  all_goals first
    | (simp only [Except.ok.injEq] at h; subst h; simp)
    | (exact absurd h (by simp))

theorem finishSegment_preserves (s : BtpSessionHandler) (p : BtpPacket) :
    (s.finishSegment p).1.writes = s.writes ∧
    (s.finishSegment p).1.queuedOutgoingMatterMessages = s.queuedOutgoingMatterMessages ∧
    (s.finishSegment p).1.prevIncomingSequenceNumber = s.prevIncomingSequenceNumber ∧
    (s.finishSegment p).1.sequenceNumber = s.sequenceNumber ∧
    (s.finishSegment p).1.isActive = s.isActive ∧
    (s.finishSegment p).1.sendAckTimerRunning = s.sendAckTimerRunning ∧
    (s.finishSegment p).1.ackReceiveTimerRunning = s.ackReceiveTimerRunning ∧
    (s.finishSegment p).1.prevIncomingAckNumber = s.prevIncomingAckNumber ∧
    (s.finishSegment p).1.fragmentSize = s.fragmentSize ∧
    (s.finishSegment p).1.clientWindowSize = s.clientWindowSize ∧
    (s.finishSegment p).1.disconnectCalls = s.disconnectCalls ∧
    (s.finishSegment p).1.sendInProgress = s.sendInProgress ∧
    (s.finishSegment p).1.prevAckedSequenceNumber = s.prevAckedSequenceNumber := by
  unfold BtpSessionHandler.finishSegment
  repeat' split
  all_goals simp

theorem reassemblyStep_preserves (s : BtpSessionHandler) (p : BtpPacket) :
    (s.reassemblyStep p).1.writes = s.writes ∧
    (s.reassemblyStep p).1.queuedOutgoingMatterMessages = s.queuedOutgoingMatterMessages ∧
    (s.reassemblyStep p).1.prevIncomingSequenceNumber = s.prevIncomingSequenceNumber ∧
    (s.reassemblyStep p).1.sequenceNumber = s.sequenceNumber ∧
    (s.reassemblyStep p).1.isActive = s.isActive ∧
    (s.reassemblyStep p).1.sendAckTimerRunning = s.sendAckTimerRunning ∧
    (s.reassemblyStep p).1.ackReceiveTimerRunning = s.ackReceiveTimerRunning ∧
    (s.reassemblyStep p).1.prevIncomingAckNumber = s.prevIncomingAckNumber ∧
    (s.reassemblyStep p).1.fragmentSize = s.fragmentSize ∧
    (s.reassemblyStep p).1.clientWindowSize = s.clientWindowSize ∧
    (s.reassemblyStep p).1.disconnectCalls = s.disconnectCalls ∧
    (s.reassemblyStep p).1.sendInProgress = s.sendInProgress ∧
    (s.reassemblyStep p).1.prevAckedSequenceNumber = s.prevAckedSequenceNumber := by
  unfold BtpSessionHandler.reassemblyStep
  split
  · simp
  · next s2 heq =>
      obtain ⟨h1, h2, h3, h4, h5, h6, h7, h8, h9, h10, h11, h12, h13, h14⟩ :=
        collectSegment_ok_preserves s p s2 heq
      obtain ⟨g1, g2, g3, g4, g5, g6, g7, g8, g9, g10, g11, g12, g13⟩ :=
        finishSegment_preserves s2 p
      refine ⟨?_, ?_, ?_, ?_, ?_, ?_, ?_, ?_, ?_, ?_, ?_, ?_, ?_⟩ <;> simp_all

theorem close_preserves (s : BtpSessionHandler) :
    s.close.writes = s.writes ∧
    s.close.queuedOutgoingMatterMessages = s.queuedOutgoingMatterMessages ∧
    s.close.delivered = s.delivered ∧
    s.close.prevIncomingSequenceNumber = s.prevIncomingSequenceNumber ∧
    s.close.prevIncomingAckNumber = s.prevIncomingAckNumber ∧
    s.close.sequenceNumber = s.sequenceNumber ∧
    s.close.fragmentSize = s.fragmentSize ∧
    s.close.clientWindowSize = s.clientWindowSize ∧
    s.close.sendInProgress = s.sendInProgress ∧
    s.close.prevAckedSequenceNumber = s.prevAckedSequenceNumber ∧
    s.close.currentIncomingSegmentedPayload = s.currentIncomingSegmentedPayload ∧
    s.close.currentIncomingSegmentedMsgLength = s.currentIncomingSegmentedMsgLength := by
  unfold BtpSessionHandler.close
  simp only []
  split <;> simp

theorem ackThenReassembly_preserves (s : BtpSessionHandler) (p : BtpPacket) :
    (s.ackThenReassembly p).1.writes = s.writes ∧
    (s.ackThenReassembly p).1.queuedOutgoingMatterMessages = s.queuedOutgoingMatterMessages ∧
    (s.ackThenReassembly p).1.prevIncomingSequenceNumber = s.prevIncomingSequenceNumber ∧
    (s.ackThenReassembly p).1.sequenceNumber = s.sequenceNumber ∧
    (s.ackThenReassembly p).1.isActive = s.isActive ∧
    (s.ackThenReassembly p).1.fragmentSize = s.fragmentSize ∧
    (s.ackThenReassembly p).1.clientWindowSize = s.clientWindowSize ∧
    (s.ackThenReassembly p).1.disconnectCalls = s.disconnectCalls ∧
    (s.ackThenReassembly p).1.sendInProgress = s.sendInProgress ∧
    (s.ackThenReassembly p).1.prevAckedSequenceNumber = s.prevAckedSequenceNumber := by
  unfold BtpSessionHandler.ackThenReassembly
  rcases hA : s.ackStep p with ⟨sa, oe⟩
  have ha := ackStep_preserves s p
  rw [hA] at ha
  obtain ⟨hw, hq, hd, hps, hsq, hia, hsat, hcp, hcl, hf, hcw, hdc, hsip, hpas⟩ := ha
  rcases oe with _ | e
  · obtain ⟨g1, g2, g3, g4, g5, g6, g7, g8, g9, g10, g11, g12, g13⟩ :=
      reassemblyStep_preserves sa p
    simp_all
  · simp_all

theorem processPacket_preserves (s : BtpSessionHandler) (p : BtpPacket) :
    (s.processPacket p).1.writes = s.writes ∧
    (s.processPacket p).1.queuedOutgoingMatterMessages = s.queuedOutgoingMatterMessages ∧
    (s.processPacket p).1.sequenceNumber = s.sequenceNumber ∧
    (s.processPacket p).1.isActive = s.isActive ∧
    (s.processPacket p).1.fragmentSize = s.fragmentSize ∧
    (s.processPacket p).1.clientWindowSize = s.clientWindowSize ∧
    (s.processPacket p).1.disconnectCalls = s.disconnectCalls ∧
    (s.processPacket p).1.sendInProgress = s.sendInProgress ∧
    (s.processPacket p).1.prevAckedSequenceNumber = s.prevAckedSequenceNumber := by
  unfold BtpSessionHandler.processPacket
  repeat' split
  all_goals simp [ackThenReassembly_preserves]
  all_goals split <;> simp

/-- C2 (amended): for every inbound buffer whose processing raises an
error, `handleIncomingBleData` calls `close()` on the state at the throw
point — but, contrary to the claim, the error is then swallowed rather
than re-raised: every error the inbound pipeline produces is a
`BtpProtocolError`, and the catch block re-raises only errors that are not
`BtpProtocolError`s, so nothing ever reaches the caller. -/
theorem handleIncoming_error_closes_and_swallows (s : BtpSessionHandler) (data : List Nat)
    (s2 : BtpSessionHandler) (e : BtpError)
    (h : s.handleIncomingInner data = (s2, some e)) :
    e.isProtocol = true ∧ s.handleIncomingBleData data = (s2.close, none) := by
  have hp := handleIncomingInner_err_protocol s data s2 e h
  refine ⟨hp, ?_⟩
  unfold BtpSessionHandler.handleIncomingBleData
  rw [h]
  simp [hp]

/-- Witness for C2 (amended) at the concrete inbound buffer
`65 6c 04 00 00 00 b9 00 06` (a handshake request fed to a running
session): decoding raises the management-opcode protocol error, the
session closes and nothing is re-raised. -/
theorem handleIncoming_error_closes_and_swallows_witness :
    (BtpError.protocolError "Management Opcode for BTPHandshake Request is not expected").isProtocol
        = true ∧
    (initialSession 20 6).handleIncomingBleData handshakeRequestBytes =
      ((initialSession 20 6).close, none) :=
  handleIncoming_error_closes_and_swallows (initialSession 20 6) handshakeRequestBytes
    (initialSession 20 6)
    (.protocolError "Management Opcode for BTPHandshake Request is not expected") (by decide)

/-- C2 (counterexample): the claim says a protocol error is re-raised to
the caller after `close()`; on the concrete buffer
`65 6c 04 00 00 00 b9 00 06` the inbound pipeline raises a protocol error
and the session closes and disconnects, yet `handleIncomingBleData`
surfaces nothing to its caller. -/
theorem handleIncoming_swallows_counterexample :
    ((initialSession 20 6).handleIncomingInner handshakeRequestBytes).2.isSome = true ∧
    ((initialSession 20 6).handleIncomingBleData handshakeRequestBytes).2 = none ∧
    ((initialSession 20 6).handleIncomingBleData handshakeRequestBytes).1.isActive = false ∧
    ((initialSession 20 6).handleIncomingBleData handshakeRequestBytes).1.disconnectCalls = 1 := by
  decide

/-- C10: `handleIncomingBleData` never writes to the BLE transport and
never consumes the outbound message queue — receiving data (including a
valid ack that reopens the send window) does not resume transmission;
queued messages stay queued until the next `sendMatterMessage` call or a
timer event. -/
theorem handleIncoming_writes_nothing_keeps_queue (s : BtpSessionHandler) (data : List Nat) :
    (s.handleIncomingBleData data).1.writes = s.writes ∧
    (s.handleIncomingBleData data).1.queuedOutgoingMatterMessages =
      s.queuedOutgoingMatterMessages := by
  unfold BtpSessionHandler.handleIncomingBleData
  rcases hI : s.handleIncomingInner data with ⟨s1, oe⟩
  have hfacts : s1.writes = s.writes ∧
      s1.queuedOutgoingMatterMessages = s.queuedOutgoingMatterMessages := by
    unfold BtpSessionHandler.handleIncomingInner at hI
    split at hI
    · simp only [Prod.mk.injEq] at hI
      obtain ⟨h1, -⟩ := hI
      subst h1
      exact ⟨rfl, rfl⟩
    · split at hI
      · simp only [Prod.mk.injEq] at hI
        obtain ⟨h1, -⟩ := hI
        subst h1
        exact ⟨rfl, rfl⟩
      · next pk hdec =>
          have hp := processPacket_preserves s pk
          rw [hI] at hp
          exact ⟨hp.1, hp.2.1⟩
  obtain ⟨hw, hq⟩ := hfacts
  rcases oe with _ | e
  · simp [hw, hq]
  · obtain ⟨hcw, hcq, -⟩ := close_preserves s1
    simp [hcw, hcq, hw, hq]

theorem processPacket_seq_gap (s : BtpSessionHandler) (p : BtpPacket)
    (hctrl : p.header.isHandshakeRequest = false ∧ p.header.hasManagementOpcode = false)
    (hne : ¬(p.payload.segmentPayload.length = 0 ∧ p.header.hasAckNumber = false))
    (hgap : p.payload.sequenceNumber ≠ (s.prevIncomingSequenceNumber + 1) % 256) :
    s.processPacket p =
      (s, some (.protocolError "Expected and actual BTP packets sequence number does not match")) := by
  unfold BtpSessionHandler.processPacket
  rw [if_neg (by simp [hctrl.1, hctrl.2]), if_neg hne, if_pos hgap]

theorem processPacket_seq_ok (s : BtpSessionHandler) (p : BtpPacket)
    (hctrl : p.header.isHandshakeRequest = false ∧ p.header.hasManagementOpcode = false)
    (hne : ¬(p.payload.segmentPayload.length = 0 ∧ p.header.hasAckNumber = false))
    (hseq : p.payload.sequenceNumber = (s.prevIncomingSequenceNumber + 1) % 256) :
    s.processPacket p =
      ({ s with prevIncomingSequenceNumber := p.payload.sequenceNumber
                sendAckTimerRunning := true }).ackThenReassembly p := by
  unfold BtpSessionHandler.processPacket
  rw [if_neg (by simp [hctrl.1, hctrl.2]), if_neg hne, if_neg (by simp [hseq])]
  by_cases hs : s.sendAckTimerRunning <;> simp [hs]

theorem ackThenReassembly_prevSeq (s : BtpSessionHandler) (p : BtpPacket) :
    (s.ackThenReassembly p).1.prevIncomingSequenceNumber = s.prevIncomingSequenceNumber :=
  (ackThenReassembly_preserves s p).2.2.1

/-- C4: for an inbound buffer decoding to a non-handshake, non-management
frame that passes the empty-frame check: when its sequence number differs
from `(prevIncomingSequenceNumber + 1) % 256` the sequence-gap protocol
error is raised and the session closes; otherwise
`prevIncomingSequenceNumber` is updated to the frame's sequence number
(and keeps that value even if a later check fails). -/
theorem sequence_number_check (s : BtpSessionHandler) (data : List Nat) (p : BtpPacket)
    (hdec : decodeBtpPacket data = .ok p)
    (hsize : data.length ≤ s.fragmentSize + 3)
    (hctrl : p.header.isHandshakeRequest = false ∧ p.header.hasManagementOpcode = false)
    (hne : ¬(p.payload.segmentPayload.length = 0 ∧ p.header.hasAckNumber = false)) :
    (p.payload.sequenceNumber ≠ (s.prevIncomingSequenceNumber + 1) % 256 →
      s.handleIncomingInner data =
        (s, some (.protocolError "Expected and actual BTP packets sequence number does not match")) ∧
      (s.handleIncomingBleData data).1.isActive = false) ∧
    (p.payload.sequenceNumber = (s.prevIncomingSequenceNumber + 1) % 256 →
      (s.handleIncomingBleData data).1.prevIncomingSequenceNumber = p.payload.sequenceNumber) := by
  have hsz : ¬(data.length > s.fragmentSize ∧ data.length > s.fragmentSize + 3) := by omega
  have hInner : s.handleIncomingInner data = s.processPacket p := by
    unfold BtpSessionHandler.handleIncomingInner
    rw [if_neg hsz, hdec]
  constructor
  · intro hgap
    have h1 : s.handleIncomingInner data =
        (s, some (.protocolError "Expected and actual BTP packets sequence number does not match")) :=
      hInner.trans (processPacket_seq_gap s p hctrl hne hgap)
    refine ⟨h1, ?_⟩
    unfold BtpSessionHandler.handleIncomingBleData
    rw [h1]
    unfold BtpSessionHandler.close
    split
    · next heq => exact absurd heq (by simp)
    · next s3 e3 heq =>
        simp only [Prod.mk.injEq] at heq
        obtain ⟨h3, -⟩ := heq
        subst h3
        simp only []
        split <;> simp_all
  · intro hseq
    have h1 : s.handleIncomingInner data =
        ({ s with prevIncomingSequenceNumber := p.payload.sequenceNumber
                  sendAckTimerRunning := true }).ackThenReassembly p :=
      hInner.trans (processPacket_seq_ok s p hctrl hne hseq)
    unfold BtpSessionHandler.handleIncomingBleData
    rcases hI : s.handleIncomingInner data with ⟨s1, oe⟩
    have hps : s1.prevIncomingSequenceNumber = p.payload.sequenceNumber := by
      have := congrArg (fun r => r.1.prevIncomingSequenceNumber) (h1.symm.trans hI)
      simpa [ackThenReassembly_prevSeq] using this.symm
    rcases oe with _ | e
    · simpa using hps
    · obtain ⟨-, -, -, hcp, -⟩ := close_preserves s1
      simpa [hcp] using hps

/-- Witness for C4 at a concrete input: an established session (previous
inbound sequence number 255, expecting 0) receiving the frame
`05 02 01 00 09` (begin+end, sequence number 2) raises the sequence-gap
error and closes. -/
theorem sequence_number_check_witness :
    (initialSession 20 6).handleIncomingInner [5, 2, 1, 0, 9] =
      (initialSession 20 6,
        some (.protocolError "Expected and actual BTP packets sequence number does not match")) ∧
    ((initialSession 20 6).handleIncomingBleData [5, 2, 1, 0, 9]).1.isActive = false :=
  (sequence_number_check (initialSession 20 6) [5, 2, 1, 0, 9]
      ⟨⟨false, false, false, true, false, true⟩, ⟨none, 2, some 1, [9]⟩⟩
      (by decide) (by decide) (by decide) (by decide)).1 (by decide)

/-- C5: on a frame that passes the control and sequence checks and carries
an ack number `a`, the ack is accepted iff
`prevIncomingAckNumber < a ≤ sequenceNumber` (linear comparison against
the session's outgoing counter).  An invalid ack raises the Invalid Ack
protocol error; a valid ack sets `prevIncomingAckNumber = a` and leaves
the ack-receive timer running iff `a < sequenceNumber` (stop, then restart
only while frames are outstanding). -/
theorem ack_validation (s : BtpSessionHandler) (p : BtpPacket) (a : Nat)
    (hctrl : p.header.isHandshakeRequest = false ∧ p.header.hasManagementOpcode = false)
    (hseq : p.payload.sequenceNumber = (s.prevIncomingSequenceNumber + 1) % 256)
    (hack : p.header.hasAckNumber = true)
    (hnum : p.payload.ackNumber = some a) :
    (((a : Int) ≤ s.prevIncomingAckNumber ∨ a > s.sequenceNumber) →
      s.processPacket p =
        ({ s with prevIncomingSequenceNumber := p.payload.sequenceNumber
                  sendAckTimerRunning := true },
          some (.protocolError "Invalid Ack Number"))) ∧
    ((s.prevIncomingAckNumber < (a : Int) ∧ a ≤ s.sequenceNumber) →
      s.processPacket p =
        ({ s with prevIncomingSequenceNumber := p.payload.sequenceNumber
                  sendAckTimerRunning := true
                  ackReceiveTimerRunning := decide (a < s.sequenceNumber)
                  prevIncomingAckNumber := (a : Int) }).reassemblyStep p ∧
      (s.processPacket p).1.prevIncomingAckNumber = (a : Int) ∧
      (s.processPacket p).1.ackReceiveTimerRunning = decide (a < s.sequenceNumber)) := by
  have hne : ¬(p.payload.segmentPayload.length = 0 ∧ p.header.hasAckNumber = false) := by
    simp [hack]
  have hmain := processPacket_seq_ok s p hctrl hne hseq
  constructor
  · intro hbad
    rw [hmain]
    unfold BtpSessionHandler.ackThenReassembly BtpSessionHandler.ackStep
    rw [hack, hnum]
    simp only []
    rw [if_pos (by simpa using hbad)]
  · intro hgood
    have hstep :
        ({ s with prevIncomingSequenceNumber := p.payload.sequenceNumber
                  sendAckTimerRunning := true } : BtpSessionHandler).ackStep p =
          ({ s with prevIncomingSequenceNumber := p.payload.sequenceNumber
                    sendAckTimerRunning := true
                    ackReceiveTimerRunning := decide (a < s.sequenceNumber)
                    prevIncomingAckNumber := (a : Int) }, none) := by
      unfold BtpSessionHandler.ackStep
      rw [hack, hnum]
      simp only []
      rw [if_neg (by push_neg; exact ⟨by exact_mod_cast hgood.1, by simpa using hgood.2⟩)]
      by_cases hlt : a < s.sequenceNumber <;> simp [hlt]
    have heq : s.processPacket p =
        ({ s with prevIncomingSequenceNumber := p.payload.sequenceNumber
                  sendAckTimerRunning := true
                  ackReceiveTimerRunning := decide (a < s.sequenceNumber)
                  prevIncomingAckNumber := (a : Int) }).reassemblyStep p := by
      rw [hmain]
      unfold BtpSessionHandler.ackThenReassembly
      rw [hstep]
    refine ⟨heq, ?_, ?_⟩
    · rw [heq]
      exact (reassemblyStep_preserves _ p).2.2.2.2.2.2.2.1.trans (by simp)
    · rw [heq]
      exact (reassemblyStep_preserves _ p).2.2.2.2.2.2.1.trans (by simp)

/-- Witness for C5 at a concrete input: a session with outgoing
`sequenceNumber = 2` and `prevIncomingAckNumber = -1` accepts ack number 1
carried by an end frame; the ack counter becomes 1 and the ack-receive
timer keeps running (1 < 2 frames still outstanding). -/
theorem ack_validation_witness :
    (({ initialSession 20 6 with sequenceNumber := 2 } : BtpSessionHandler).processPacket
        ⟨⟨false, false, true, false, true, true⟩, ⟨some 1, 0, none, [7]⟩⟩).1.prevIncomingAckNumber
        = 1 ∧
    (({ initialSession 20 6 with sequenceNumber := 2 } : BtpSessionHandler).processPacket
        ⟨⟨false, false, true, false, true, true⟩, ⟨some 1, 0, none, [7]⟩⟩).1.ackReceiveTimerRunning
        = true := by
  have h := (ack_validation ({ initialSession 20 6 with sequenceNumber := 2 })
      ⟨⟨false, false, true, false, true, true⟩, ⟨some 1, 0, none, [7]⟩⟩ 1
      (by decide) (by decide) (by decide) (by decide)).2 (by decide)
  exact ⟨h.2.1, by simpa using h.2.2⟩

/-- C6: when the peer offers no supported version (the supported set is
`{4}`), `createFromHandshakeRequest` invokes `disconnectBle` exactly once
and fails with the no-common-version protocol error without constructing a
session; when it succeeds, the handshake response has been written to the
transport (successfully) before the session is returned and no disconnect
happened; and a failing `writeBle` aborts construction — the caller never
receives a session. -/
theorem createFromHandshakeRequest_version_and_write (maxDataSize : Option Nat)
    (payload : List Nat) (writeResult : Except BtpError Unit) :
    (∀ req, decodeBtpHandshakeRequest payload = .ok req → req.versions.contains 4 = false →
      createFromHandshakeRequest maxDataSize payload writeResult =
        ⟨1, .error (.protocolError "No supported BTP version found")⟩) ∧
    (∀ e, writeResult = .error e →
      (createFromHandshakeRequest maxDataSize payload writeResult).result.isOk = false) ∧
    (∀ sess resp,
      (createFromHandshakeRequest maxDataSize payload writeResult).result = .ok (sess, resp) →
      writeResult = .ok () ∧
      (createFromHandshakeRequest maxDataSize payload writeResult).disconnectCalls = 0) := by
  have hsucc : ∀ sess resp,
      (createFromHandshakeRequest maxDataSize payload writeResult).result = .ok (sess, resp) →
      writeResult = .ok () ∧
      (createFromHandshakeRequest maxDataSize payload writeResult).disconnectCalls = 0 := by
    intro sess resp h
    unfold createFromHandshakeRequest at h ⊢
    split at h
    · next e hdec => cases h
    · next req hdec =>
        split at h
        · next hfind => cases h
        · next version hfind =>
            simp only [] at h
            rcases hw : writeResult with e | u
            · rw [hw] at h
              split at h <;> simp at h
            · rw [hw] at h
              split at h
              · next e2 hmk2 => simp at h
              · next sess3 hmk2 =>
                  simp [hdec, hfind, hmk2, hw]
  refine ⟨?_, ?_, hsucc⟩
  · intro req hdec hc4
    have h4 : ¬(4 ∈ req.versions) := by simpa using hc4
    unfold createFromHandshakeRequest
    rw [hdec]
    simp [SUPPORTED_BTP_VERSIONS, List.find?, h4]
  · intro e he
    rcases hres : (createFromHandshakeRequest maxDataSize payload writeResult).result with e2 | pr
    · simp [Except.isOk, Except.toBool, hres]
    · obtain ⟨hw, -⟩ := hsucc pr.1 pr.2 (by rw [hres])
      rw [he] at hw
      cases hw

/-- Witness for C6 at the concrete handshake request
`65 6c 05 00 00 00 00 00 06` offering only version 5: construction fails
with the no-common-version error and exactly one disconnect. -/
theorem createFromHandshakeRequest_version_and_write_witness :
    createFromHandshakeRequest (some 100) [0x65, 0x6C, 0x05, 0, 0, 0, 0, 0, 6] (.ok ()) =
      ⟨1, .error (.protocolError "No supported BTP version found")⟩ :=
  (createFromHandshakeRequest_version_and_write (some 100)
      [0x65, 0x6C, 0x05, 0, 0, 0, 0, 0, 6] (.ok ())).1
    ⟨[5], 0, 6⟩ (by decide) (by decide)

theorem sendFinish_fields (s : BtpSessionHandler) (message : List Nat) (offset : Nat)
    (restQueue : List (List Nat × Nat)) (isEndingSegment : Bool) (available : Int)
    (encoded : Except BtpError (List Nat)) :
    (sendFinish s message offset restQueue isEndingSegment available encoded).1.sequenceNumber
        = s.sequenceNumber ∧
    (sendFinish s message offset restQueue isEndingSegment available
        encoded).1.prevIncomingAckNumber = s.prevIncomingAckNumber ∧
    (sendFinish s message offset restQueue isEndingSegment available
        encoded).1.clientWindowSize = s.clientWindowSize ∧
    (sendFinish s message offset restQueue isEndingSegment available
        encoded).1.isActive = s.isActive ∧
    (sendFinish s message offset restQueue isEndingSegment available
        encoded).1.sendInProgress = s.sendInProgress := by
  unfold sendFinish
  repeat' split
  all_goals try simp
  all_goals split <;> simp

theorem sendPrep_fields (s : BtpSessionHandler) (message : List Nat) (offset : Nat) :
    (sendPrep s message offset).1.sequenceNumber = nextSequenceNumber s.sequenceNumber ∧
    (sendPrep s message offset).1.prevIncomingAckNumber = s.prevIncomingAckNumber ∧
    (sendPrep s message offset).1.clientWindowSize = s.clientWindowSize ∧
    (sendPrep s message offset).1.isActive = s.isActive ∧
    (sendPrep s message offset).1.sendInProgress = s.sendInProgress := by
  unfold sendPrep
  simp only []
  split <;> simp

theorem sendIteration_fields (s : BtpSessionHandler) (message : List Nat) (offset : Nat)
    (restQueue : List (List Nat × Nat)) :
    (sendIteration s message offset restQueue).1.sequenceNumber =
      nextSequenceNumber s.sequenceNumber ∧
    (sendIteration s message offset restQueue).1.prevIncomingAckNumber =
      s.prevIncomingAckNumber ∧
    (sendIteration s message offset restQueue).1.clientWindowSize = s.clientWindowSize ∧
    (sendIteration s message offset restQueue).1.isActive = s.isActive ∧
    (sendIteration s message offset restQueue).1.sendInProgress = s.sendInProgress := by
  unfold sendIteration
  rcases hP : sendPrep s message offset with ⟨s1, pkt, isEnd, avail⟩
  obtain ⟨h1, h2, h3, h4, h5⟩ := sendPrep_fields s message offset
  rw [hP] at h1 h2 h3 h4 h5
  simp only [] at h1 h2 h3 h4 h5
  simp only [sendFinish_fields]
  exact ⟨h1, h2, h3, h4, h5⟩

theorem nextSequenceNumber_window (seq : Nat) (ack w : Int)
    (h : (seq : Int) - ack ≤ w - 1) :
    (nextSequenceNumber seq : Int) - ack ≤ w := by
  unfold nextSequenceNumber
  split <;> push_cast <;> omega

theorem sendLoop_succ (fuel : Nat) (s : BtpSessionHandler) :
    sendLoop (fuel + 1) s =
      match s.queuedOutgoingMatterMessages with
      | [] => (s, none)
      | (message, offset) :: restQueue =>
        match sendIteration s message offset restQueue with
        | (s2, some e) => (s2, some e)
        | (s2, none) =>
          if (s2.sequenceNumber : Int) - s2.prevIncomingAckNumber >
              (s2.clientWindowSize : Int) - 1 then
            (s2, none)
          else
            sendLoop fuel s2 := rfl

theorem sendLoop_window (fuel : Nat) : ∀ s : BtpSessionHandler,
    (s.sequenceNumber : Int) - s.prevIncomingAckNumber ≤ (s.clientWindowSize : Int) - 1 →
    (((sendLoop fuel s).1.sequenceNumber : Int) - (sendLoop fuel s).1.prevIncomingAckNumber
        ≤ (s.clientWindowSize : Int)) ∧
    (sendLoop fuel s).1.clientWindowSize = s.clientWindowSize := by
  induction fuel with
  | zero =>
      intro s h
      refine ⟨?_, rfl⟩
      show (s.sequenceNumber : Int) - s.prevIncomingAckNumber ≤ (s.clientWindowSize : Int)
      omega
  | succ fuel ih =>
      intro s h
      rw [sendLoop_succ]
      rcases hq : s.queuedOutgoingMatterMessages with _ | ⟨⟨message, offset⟩, restQueue⟩
      · refine ⟨?_, rfl⟩
        show (s.sequenceNumber : Int) - s.prevIncomingAckNumber ≤ (s.clientWindowSize : Int)
        omega
      · simp only []
        obtain ⟨hseq, hack, hw, -, -⟩ := sendIteration_fields s message offset restQueue
        rcases hIT : sendIteration s message offset restQueue with ⟨s2, oe⟩
        rw [hIT] at hseq hack hw
        simp only [] at hseq hack hw
        have hbound : (s2.sequenceNumber : Int) - s2.prevIncomingAckNumber ≤
            (s.clientWindowSize : Int) := by
          rw [hseq, hack]
          exact nextSequenceNumber_window s.sequenceNumber s.prevIncomingAckNumber
            (s.clientWindowSize : Int) h
        rcases oe with _ | e
        · simp only []
          split
          · next hgt => exact ⟨by simpa using hbound, by simpa using hw⟩
          · next hle =>
              have hres := ih s2 (by omega)
              rw [hw] at hres
              exact hres
        · exact ⟨by simpa using hbound, by simpa using hw⟩

/-- C3 (amended): the window guard of `processSendQueue` is off by one
relative to the claim.  Whenever the in-flight count
`sequenceNumber − prevIncomingAckNumber` is at most `clientWindowSize`, it
stays at most `clientWindowSize` (not `clientWindowSize − 1`) at every
moment during and after `processSendQueue`; a new data frame is emitted
only when the count is at most `clientWindowSize − 1` before the send — in
particular a frame IS emitted when the count equals `clientWindowSize − 1`
— and when the count already exceeds `clientWindowSize − 1` on entry the
procedure does nothing at all. -/
theorem processSendQueue_window (s : BtpSessionHandler)
    (h : (s.sequenceNumber : Int) - s.prevIncomingAckNumber ≤ (s.clientWindowSize : Int)) :
    (((s.processSendQueue.1.sequenceNumber : Int) - s.processSendQueue.1.prevIncomingAckNumber)
        ≤ (s.clientWindowSize : Int)) ∧
    ((s.sequenceNumber : Int) - s.prevIncomingAckNumber > (s.clientWindowSize : Int) - 1 →
      s.processSendQueue = (s, none)) := by
  unfold BtpSessionHandler.processSendQueue
  split
  · refine ⟨?_, fun _ => rfl⟩
    show (s.sequenceNumber : Int) - s.prevIncomingAckNumber ≤ (s.clientWindowSize : Int)
    omega
  · split
    · refine ⟨?_, fun _ => rfl⟩
      show (s.sequenceNumber : Int) - s.prevIncomingAckNumber ≤ (s.clientWindowSize : Int)
      omega
    · next hguard =>
        split
        · refine ⟨?_, fun hgt => absurd hgt (by omega)⟩
          show (s.sequenceNumber : Int) - s.prevIncomingAckNumber ≤ (s.clientWindowSize : Int)
          omega
        · refine ⟨?_, fun hgt => absurd hgt (by omega)⟩
          have hstart : ((({ s with sendInProgress := true } :
              BtpSessionHandler).sequenceNumber : Int) -
                ({ s with sendInProgress := true } :
                  BtpSessionHandler).prevIncomingAckNumber ≤
              (({ s with sendInProgress := true } :
                BtpSessionHandler).clientWindowSize : Int) - 1) := by
            simp only []
            omega
          have hres := sendLoop_window s.sendQueueFuel { s with sendInProgress := true } hstart
          rcases hL : sendLoop s.sendQueueFuel { s with sendInProgress := true } with ⟨s2, oe⟩
          rw [hL] at hres
          simp only [] at hres
          rcases oe with _ | e <;> simpa using hres.1

/-- Overwriting the liveness flag of a session, used to state that the
engine never consults `isActive` outside `close()`. -/
def setActive (s : BtpSessionHandler) (b : Bool) : BtpSessionHandler := { s with isActive := b }

theorem ackStep_setActive (s : BtpSessionHandler) (p : BtpPacket) (b : Bool) :
    (setActive s b).ackStep p = (setActive (s.ackStep p).1 b, (s.ackStep p).2) := by
  unfold setActive BtpSessionHandler.ackStep
  repeat' split <;> simp_all

theorem collectSegment_setActive (s : BtpSessionHandler) (p : BtpPacket) (b : Bool) :
    (setActive s b).collectSegment p = ((s.collectSegment p).map (setActive · b)) := by
  unfold setActive BtpSessionHandler.collectSegment
  simp only []
  repeat' split
  all_goals rfl

theorem finishSegment_setActive (s : BtpSessionHandler) (p : BtpPacket) (b : Bool) :
    (setActive s b).finishSegment p = (setActive (s.finishSegment p).1 b, (s.finishSegment p).2) := by
  unfold setActive BtpSessionHandler.finishSegment
  repeat' split <;> simp_all

theorem reassemblyStep_setActive (s : BtpSessionHandler) (p : BtpPacket) (b : Bool) :
    (setActive s b).reassemblyStep p = (setActive (s.reassemblyStep p).1 b, (s.reassemblyStep p).2) := by
  unfold BtpSessionHandler.reassemblyStep
  rw [collectSegment_setActive]
  rcases hC : s.collectSegment p with e | s2 <;> simp [Except.map, finishSegment_setActive]

theorem ackThenReassembly_setActive (s : BtpSessionHandler) (p : BtpPacket) (b : Bool) :
    (setActive s b).ackThenReassembly p =
      (setActive (s.ackThenReassembly p).1 b, (s.ackThenReassembly p).2) := by
  unfold BtpSessionHandler.ackThenReassembly
  rw [ackStep_setActive]
  rcases hA : s.ackStep p with ⟨s2, _ | e⟩ <;> simp [reassemblyStep_setActive]

theorem processPacket_setActive (s : BtpSessionHandler) (p : BtpPacket) (b : Bool) :
    (setActive s b).processPacket p = (setActive (s.processPacket p).1 b, (s.processPacket p).2) := by
  unfold BtpSessionHandler.processPacket
  repeat' split
  all_goals try (simp_all [setActive]; done)
  all_goals simp only [setActive]
  all_goals split
  all_goals
    first
      | exact ackThenReassembly_setActive
          { s with prevIncomingSequenceNumber := p.payload.sequenceNumber } p b
      | exact ackThenReassembly_setActive
          { s with prevIncomingSequenceNumber := p.payload.sequenceNumber
                   sendAckTimerRunning := true } p b

theorem handleIncomingInner_setActive (s : BtpSessionHandler) (data : List Nat) (b : Bool) :
    (setActive s b).handleIncomingInner data =
      (setActive (s.handleIncomingInner data).1 b, (s.handleIncomingInner data).2) := by
  unfold BtpSessionHandler.handleIncomingInner setActive
  simp only []
  split
  · rfl
  · split
    · rfl
    · next pk hdec => exact processPacket_setActive s pk b

theorem sendPrep_setActive (s : BtpSessionHandler) (message : List Nat) (offset : Nat) (b : Bool) :
    sendPrep (setActive s b) message offset =
      (setActive (sendPrep s message offset).1 b, (sendPrep s message offset).2) := by
  unfold sendPrep setActive
  dsimp only []
  repeat' split
  all_goals first | rfl | simp_all

theorem sendFinish_setActive (s : BtpSessionHandler) (message : List Nat) (offset : Nat)
    (restQueue : List (List Nat × Nat)) (isEnd : Bool) (available : Int)
    (encoded : Except BtpError (List Nat)) (b : Bool) :
    sendFinish (setActive s b) message offset restQueue isEnd available encoded =
      (setActive (sendFinish s message offset restQueue isEnd available encoded).1 b,
       (sendFinish s message offset restQueue isEnd available encoded).2) := by
  unfold setActive sendFinish
  repeat' split
  all_goals first | rfl | simp_all

theorem sendIteration_setActive (s : BtpSessionHandler) (message : List Nat) (offset : Nat)
    (restQueue : List (List Nat × Nat)) (b : Bool) :
    sendIteration (setActive s b) message offset restQueue =
      (setActive (sendIteration s message offset restQueue).1 b,
        (sendIteration s message offset restQueue).2) := by
  unfold sendIteration
  rw [sendPrep_setActive]
  rcases hP : sendPrep s message offset with ⟨s1, pkt, isEnd, avail⟩
  simp only []
  exact sendFinish_setActive s1 message offset restQueue isEnd avail (encodeBtpPacket pkt) b

theorem sendQueueFuel_setActive (s : BtpSessionHandler) (b : Bool) :
    (setActive s b).sendQueueFuel = s.sendQueueFuel := rfl

theorem sendLoop_setActive (fuel : Nat) : ∀ (s : BtpSessionHandler) (b : Bool),
    sendLoop fuel (setActive s b) =
      (setActive (sendLoop fuel s).1 b, (sendLoop fuel s).2) := by
  induction fuel with
  | zero => intro s b; rfl
  | succ fuel ih =>
      intro s b
      rw [sendLoop_succ, sendLoop_succ]
      show (match (setActive s b).queuedOutgoingMatterMessages with
        | [] => ((setActive s b), none)
        | (message, offset) :: restQueue =>
          match sendIteration (setActive s b) message offset restQueue with
          | (s2, some e) => (s2, some e)
          | (s2, none) =>
            if (s2.sequenceNumber : Int) - s2.prevIncomingAckNumber >
                (s2.clientWindowSize : Int) - 1 then (s2, none)
            else sendLoop fuel s2) = _
      have hqa : (setActive s b).queuedOutgoingMatterMessages =
        s.queuedOutgoingMatterMessages := rfl
      rw [hqa]
      rcases hq : s.queuedOutgoingMatterMessages with _ | ⟨⟨message, offset⟩, restQueue⟩
      · rfl
      · simp only []
        rw [sendIteration_setActive]
        rcases hIT : sendIteration s message offset restQueue with ⟨s2, oe⟩
        simp only []
        rcases oe with _ | e
        · simp only []
          split <;> split <;> first | rfl | (exact ih s2 b) | simp_all [setActive]
        · rfl

theorem processSendQueue_setActive (s : BtpSessionHandler) (b : Bool) :
    (setActive s b).processSendQueue =
      (setActive s.processSendQueue.1 b, s.processSendQueue.2) := by
  unfold BtpSessionHandler.processSendQueue
  simp only [sendQueueFuel_setActive]
  simp only [setActive]
  split
  · rfl
  · split
    · rfl
    · split
      · rfl
      · have h5 : ({ fragmentSize := s.fragmentSize
                     clientWindowSize := s.clientWindowSize
                     currentIncomingSegmentedMsgLength := s.currentIncomingSegmentedMsgLength
                     currentIncomingSegmentedPayload := s.currentIncomingSegmentedPayload
                     prevIncomingSequenceNumber := s.prevIncomingSequenceNumber
                     prevIncomingAckNumber := s.prevIncomingAckNumber
                     ackReceiveTimerRunning := s.ackReceiveTimerRunning
                     sequenceNumber := s.sequenceNumber
                     prevAckedSequenceNumber := s.prevAckedSequenceNumber
                     queuedOutgoingMatterMessages := s.queuedOutgoingMatterMessages
                     sendInProgress := true
                     sendAckTimerRunning := s.sendAckTimerRunning
                     isActive := b
                     writes := s.writes
                     delivered := s.delivered
                     disconnectCalls := s.disconnectCalls } : BtpSessionHandler) =
            setActive { s with sendInProgress := true } b := rfl
        rw [h5, sendLoop_setActive]
        rcases hL : sendLoop s.sendQueueFuel { s with sendInProgress := true } with ⟨s2, oe⟩
        rcases oe with _ | e <;> rfl

theorem sendMatterMessage_setActive (s : BtpSessionHandler) (data : List Nat) (b : Bool) :
    (setActive s b).sendMatterMessage data =
      (setActive (s.sendMatterMessage data).1 b, (s.sendMatterMessage data).2) := by
  unfold BtpSessionHandler.sendMatterMessage
  simp only [setActive]
  split
  · rfl
  · have h1 : ({ fragmentSize := s.fragmentSize
                 clientWindowSize := s.clientWindowSize
                 currentIncomingSegmentedMsgLength := s.currentIncomingSegmentedMsgLength
                 currentIncomingSegmentedPayload := s.currentIncomingSegmentedPayload
                 prevIncomingSequenceNumber := s.prevIncomingSequenceNumber
                 prevIncomingAckNumber := s.prevIncomingAckNumber
                 ackReceiveTimerRunning := s.ackReceiveTimerRunning
                 sequenceNumber := s.sequenceNumber
                 prevAckedSequenceNumber := s.prevAckedSequenceNumber
                 queuedOutgoingMatterMessages := s.queuedOutgoingMatterMessages ++ [(data, 0)]
                 sendInProgress := s.sendInProgress
                 sendAckTimerRunning := s.sendAckTimerRunning
                 isActive := b
                 writes := s.writes
                 delivered := s.delivered
                 disconnectCalls := s.disconnectCalls } : BtpSessionHandler) =
        setActive { s with queuedOutgoingMatterMessages :=
          s.queuedOutgoingMatterMessages ++ [(data, 0)] } b := rfl
    rw [h1, processSendQueue_setActive]
    rfl

/-- C9 (amended): after `close()` the engine does NOT turn subsequent
operations into no-ops: neither the inbound pipeline nor the outbound path
ever consults `isActive` — their behaviour commutes with overwriting
`isActive` — so a closed (inactive) session keeps mutating state,
delivering reassembled messages upward and writing frames to the
transport exactly as an active one would. -/
theorem ingest_send_ignore_isActive (s : BtpSessionHandler) (data : List Nat) (b : Bool) :
    (setActive s b).handleIncomingInner data =
      (setActive (s.handleIncomingInner data).1 b, (s.handleIncomingInner data).2) ∧
    (setActive s b).sendMatterMessage data =
      (setActive (s.sendMatterMessage data).1 b, (s.sendMatterMessage data).2) :=
  ⟨handleIncomingInner_setActive s data b, sendMatterMessage_setActive s data b⟩

/-- C9 (counterexample): the claim says that after `close()` every
`handleIncomingBleData`/`sendMatterMessage` is a no-op (or rejects); on the
closed fresh session the inbound frame `0d 00 00 09 00 01..09` is still
reassembled and delivered upward, and a subsequent send still writes a
frame to the transport — and neither operation rejects. -/
theorem closed_session_counterexample :
    ((initialSession 20 6).close.handleIncomingBleData
        [0x0d, 0, 0, 9, 0, 1, 2, 3, 4, 5, 6, 7, 8, 9]).1.delivered =
      [[1, 2, 3, 4, 5, 6, 7, 8, 9]] ∧
    ((initialSession 20 6).close.handleIncomingBleData
        [0x0d, 0, 0, 9, 0, 1, 2, 3, 4, 5, 6, 7, 8, 9]).2 = none ∧
    ((initialSession 20 6).close.sendMatterMessage [5]).1.writes ≠ [] ∧
    ((initialSession 20 6).close.sendMatterMessage [5]).2 = none := by decide

/-- A fresh window-6 session with one queued 3-byte outbound message, the
concrete state used to witness the amended window theorem. -/
def queuedSession : BtpSessionHandler :=
  { initialSession 20 6 with queuedOutgoingMatterMessages := [([1, 2, 3], 0)] }

/-- Witness for C3 (amended) at a concrete state: `queuedSession`
satisfies the in-flight premise, so the conclusion holds there. -/
theorem processSendQueue_window_witness :
    (((queuedSession.processSendQueue.1.sequenceNumber : Int) -
        queuedSession.processSendQueue.1.prevIncomingAckNumber)
        ≤ (queuedSession.clientWindowSize : Int)) ∧
    ((queuedSession.sequenceNumber : Int) - queuedSession.prevIncomingAckNumber >
        (queuedSession.clientWindowSize : Int) - 1 →
      queuedSession.processSendQueue = (queuedSession, none)) :=
  processSendQueue_window queuedSession (by decide)

/-- C3 (counterexample): with a negotiated window size of 2, a fresh
session already has in-flight count 1 = windowSize − 1 (the handshake
response, sequence number 0, is unacknowledged), yet `sendMatterMessage`
still emits a data frame, after which the count is 2 > windowSize − 1 —
contradicting both halves of the claim. -/
theorem processSendQueue_window_counterexample :
    ((initialSession 20 2).sequenceNumber : Int) - (initialSession 20 2).prevIncomingAckNumber
        = ((initialSession 20 2).clientWindowSize : Int) - 1 ∧
    ((initialSession 20 2).sendMatterMessage [5]).1.writes.length = 1 ∧
    (((initialSession 20 2).sendMatterMessage [5]).1.sequenceNumber : Int) -
        ((initialSession 20 2).sendMatterMessage [5]).1.prevIncomingAckNumber
        = ((initialSession 20 2).clientWindowSize : Int) := by decide

/-- Header of an inbound data frame (no handshake/management/ack bits; the
continuing bit is the complement of the beginning bit, as the engine
itself emits them). -/
def dataHeader (isBegin isEnd : Bool) : BtpHeader :=
  { isHandshakeRequest := false
    hasManagementOpcode := false
    hasAckNumber := false
    isBeginningSegment := isBegin
    isContinuingSegment := !isBegin
    isEndingSegment := isEnd }

/-- A beginning segment of a message of total length `msgLen`. -/
def beginPacket (seq msgLen : Nat) (seg : List Nat) (isEnd : Bool) : BtpPacket :=
  ⟨dataHeader true isEnd, ⟨none, seq, some msgLen, seg⟩⟩

/-- A continuing (or ending) segment. -/
def contPacket (seq : Nat) (seg : List Nat) (isEnd : Bool) : BtpPacket :=
  ⟨dataHeader false isEnd, ⟨none, seq, none, seg⟩⟩

theorem ackStep_noAck (s : BtpSessionHandler) (p : BtpPacket)
    (h : p.header.hasAckNumber = false) : s.ackStep p = (s, none) := by
  unfold BtpSessionHandler.ackStep
  rw [h]

theorem processPacket_cont (s : BtpSessionHandler) (seg acc : List Nat)
    (hseg : seg ≠ []) (hcur : s.currentIncomingSegmentedPayload = some acc) :
    s.processPacket (contPacket ((s.prevIncomingSequenceNumber + 1) % 256) seg false) =
      ({ s with prevIncomingSequenceNumber := (s.prevIncomingSequenceNumber + 1) % 256
                sendAckTimerRunning := true
                currentIncomingSegmentedPayload := some (acc ++ seg) }, none) := by
  rw [processPacket_seq_ok s _ (by simp [contPacket, dataHeader])
      (by simp [contPacket, dataHeader, hseg]) rfl]
  unfold BtpSessionHandler.ackThenReassembly
  rw [ackStep_noAck _ _ (by simp [contPacket, dataHeader])]
  unfold BtpSessionHandler.reassemblyStep BtpSessionHandler.collectSegment
    BtpSessionHandler.finishSegment
  simp [contPacket, dataHeader, hcur, hseg]

theorem processPacket_contEnd (s : BtpSessionHandler) (seg acc : List Nat) (L : Nat)
    (hseg : seg ≠ []) (hcur : s.currentIncomingSegmentedPayload = some acc)
    (hlen : s.currentIncomingSegmentedMsgLength = some L) :
    s.processPacket (contPacket ((s.prevIncomingSequenceNumber + 1) % 256) seg true) =
      (if (acc ++ seg).length = L then
        ({ s with prevIncomingSequenceNumber := (s.prevIncomingSequenceNumber + 1) % 256
                  sendAckTimerRunning := true
                  currentIncomingSegmentedMsgLength := none
                  currentIncomingSegmentedPayload := none
                  delivered := s.delivered ++ [acc ++ seg] }, none)
      else
        ({ s with prevIncomingSequenceNumber := (s.prevIncomingSequenceNumber + 1) % 256
                  sendAckTimerRunning := true
                  currentIncomingSegmentedPayload := some (acc ++ seg) },
          some (.protocolError "BTP packet payload length does not match message length"))) := by
  rw [processPacket_seq_ok s _ (by simp [contPacket, dataHeader])
      (by simp [contPacket, dataHeader, hseg]) rfl]
  unfold BtpSessionHandler.ackThenReassembly
  rw [ackStep_noAck _ _ (by simp [contPacket, dataHeader])]
  unfold BtpSessionHandler.reassemblyStep BtpSessionHandler.collectSegment
    BtpSessionHandler.finishSegment
  simp [contPacket, dataHeader, hcur, hlen, hseg]

theorem processPacket_begin (s : BtpSessionHandler) (seg : List Nat) (L : Nat)
    (hseg : seg ≠ []) (hclean : s.currentIncomingSegmentedPayload = none) :
    s.processPacket (beginPacket ((s.prevIncomingSequenceNumber + 1) % 256) L seg false) =
      ({ s with prevIncomingSequenceNumber := (s.prevIncomingSequenceNumber + 1) % 256
                sendAckTimerRunning := true
                currentIncomingSegmentedMsgLength := some L
                currentIncomingSegmentedPayload := some seg }, none) := by
  rw [processPacket_seq_ok s _ (by simp [beginPacket, dataHeader])
      (by simp [beginPacket, dataHeader, hseg]) rfl]
  unfold BtpSessionHandler.ackThenReassembly
  rw [ackStep_noAck _ _ (by simp [beginPacket, dataHeader])]
  unfold BtpSessionHandler.reassemblyStep BtpSessionHandler.collectSegment
    BtpSessionHandler.finishSegment
  simp [beginPacket, dataHeader, hclean]

theorem processPacket_beginEnd (s : BtpSessionHandler) (seg : List Nat) (L : Nat)
    (hseg : seg ≠ []) (hclean : s.currentIncomingSegmentedPayload = none) :
    s.processPacket (beginPacket ((s.prevIncomingSequenceNumber + 1) % 256) L seg true) =
      (if seg.length = L then
        ({ s with prevIncomingSequenceNumber := (s.prevIncomingSequenceNumber + 1) % 256
                  sendAckTimerRunning := true
                  currentIncomingSegmentedMsgLength := none
                  currentIncomingSegmentedPayload := none
                  delivered := s.delivered ++ [seg] }, none)
      else
        ({ s with prevIncomingSequenceNumber := (s.prevIncomingSequenceNumber + 1) % 256
                  sendAckTimerRunning := true
                  currentIncomingSegmentedMsgLength := some L
                  currentIncomingSegmentedPayload := some seg },
          some (.protocolError "BTP packet payload length does not match message length"))) := by
  rw [processPacket_seq_ok s _ (by simp [beginPacket, dataHeader])
      (by simp [beginPacket, dataHeader, hseg]) rfl]
  unfold BtpSessionHandler.ackThenReassembly
  rw [ackStep_noAck _ _ (by simp [beginPacket, dataHeader])]
  unfold BtpSessionHandler.reassemblyStep BtpSessionHandler.collectSegment
    BtpSessionHandler.finishSegment
  simp [beginPacket, dataHeader, hclean]

/-- The continuing/ending frames of a message after its beginning frame,
with consecutive sequence numbers following `prev`. -/
def contFrames (prev : Nat) : List (List Nat) → List BtpPacket
  | [] => []
  | [seg] => [contPacket ((prev + 1) % 256) seg true]
  | seg :: rest => contPacket ((prev + 1) % 256) seg false :: contFrames ((prev + 1) % 256) rest

/-- All frames of a message with declared length `msgLen` and segments
`segs`, with consecutive sequence numbers following `prev`: a beginning
frame, then continuing frames, the last frame flagged ending. -/
def messageFrames (prev msgLen : Nat) : List (List Nat) → List BtpPacket
  | [] => []
  | [seg] => [beginPacket ((prev + 1) % 256) msgLen seg true]
  | seg :: rest => beginPacket ((prev + 1) % 256) msgLen seg false :: contFrames ((prev + 1) % 256) rest

/-- The inbound sequence counter after advancing `n` frames from `prev`. -/
def seqAfter : Nat → Nat → Nat
  | prev, 0 => prev
  | prev, n + 1 => seqAfter ((prev + 1) % 256) n

/-- The frames of a list of messages, each message carrying its actual
total length, all sequence numbers consecutive. -/
def messagesFrames (prev : Nat) : List (List (List Nat)) → List BtpPacket
  | [] => []
  | segs :: rest =>
    messageFrames prev segs.flatten.length segs ++
      messagesFrames (seqAfter prev segs.length) rest

/-- Feeding a list of decoded frames to the engine one by one (as
successive `handleIncomingBleData` calls deliver them), stopping at the
first error. -/
def processPackets (s : BtpSessionHandler) : List BtpPacket → BtpSessionHandler × Option BtpError
  | [] => (s, none)
  | p :: ps =>
    match s.processPacket p with
    | (s, none) => processPackets s ps
    | (s, some e) => (s, some e)

theorem processPackets_append (s : BtpSessionHandler) (xs ys : List BtpPacket) :
    processPackets s (xs ++ ys) =
      (match processPackets s xs with
       | (s1, none) => processPackets s1 ys
       | (s1, some e) => (s1, some e)) := by
  induction xs generalizing s with
  | nil => simp [processPackets]
  | cons p ps ih =>
      simp only [List.cons_append, processPackets]
      rcases hP : s.processPacket p with ⟨s1, _ | e⟩
      · simp only []
        exact ih s1
      · rfl

theorem processPackets_contFrames (segs : List (List Nat)) :
    ∀ (s : BtpSessionHandler) (acc : List Nat) (L : Nat),
    s.currentIncomingSegmentedPayload = some acc →
    s.currentIncomingSegmentedMsgLength = some L →
    segs ≠ [] → (∀ seg ∈ segs, seg ≠ []) →
    (acc.length + segs.flatten.length = L →
      processPackets s (contFrames s.prevIncomingSequenceNumber segs) =
        ({ s with prevIncomingSequenceNumber := seqAfter s.prevIncomingSequenceNumber segs.length
                  sendAckTimerRunning := true
                  currentIncomingSegmentedMsgLength := none
                  currentIncomingSegmentedPayload := none
                  delivered := s.delivered ++ [acc ++ segs.flatten] }, none)) ∧
    (acc.length + segs.flatten.length ≠ L →
      (processPackets s (contFrames s.prevIncomingSequenceNumber segs)).2 =
        some (.protocolError "BTP packet payload length does not match message length") ∧
      (processPackets s (contFrames s.prevIncomingSequenceNumber segs)).1.delivered =
        s.delivered) := by
  induction segs with
  | nil => intro s acc L _ _ hne; exact absurd rfl hne
  | cons seg rest ih =>
      intro s acc L hcur hlen _ hsegs
      have hseg : seg ≠ [] := hsegs seg (by simp)
      rcases rest with _ | ⟨seg2, rest2⟩
      · constructor
        · intro hOK
          have hOK2 : (acc ++ seg).length = L := by
            simp only [List.length_append]
            simpa using hOK
          simp only [contFrames, processPackets,
            processPacket_contEnd s seg acc L hseg hcur hlen, if_pos hOK2]
          simp [seqAfter]
        · intro hBAD
          have hBAD2 : ¬((acc ++ seg).length = L) := by
            simp only [List.length_append]
            simpa using hBAD
          simp only [contFrames, processPackets,
            processPacket_contEnd s seg acc L hseg hcur hlen, if_neg hBAD2]
          exact ⟨trivial, trivial⟩
      · have hstep := processPacket_cont s seg acc hseg hcur
        have hres := ih ({ s with
            prevIncomingSequenceNumber := (s.prevIncomingSequenceNumber + 1) % 256
            sendAckTimerRunning := true
            currentIncomingSegmentedPayload := some (acc ++ seg) })
          (acc ++ seg) L (by simp) (by simpa using hlen) (by simp)
          (fun sg hsg => hsegs sg (by simp [hsg]))
        constructor
        · intro hOK
          have hOK2 : (acc ++ seg).length + (seg2 :: rest2).flatten.length = L := by
            simp only [List.length_append]
            simp only [List.flatten_cons, List.length_append] at hOK ⊢
            omega
          have h1 := hres.1 hOK2
          simp only [contFrames, processPackets, hstep]
          simp only [] at h1
          rw [h1]
          simp [seqAfter, List.append_assoc]
        · intro hBAD
          have hBAD2 : ¬((acc ++ seg).length + (seg2 :: rest2).flatten.length = L) := by
            simp only [List.length_append]
            simp only [List.flatten_cons, List.length_append] at hBAD ⊢
            omega
          have h2 := hres.2 hBAD2
          simp only [contFrames, processPackets, hstep]
          simp only [] at h2
          exact h2

theorem processPackets_messageFrames (segs : List (List Nat)) (s : BtpSessionHandler) (L : Nat)
    (hclean : s.currentIncomingSegmentedPayload = none)
    (hne : segs ≠ []) (hsegs : ∀ seg ∈ segs, seg ≠ []) :
    (segs.flatten.length = L →
      processPackets s (messageFrames s.prevIncomingSequenceNumber L segs) =
        ({ s with prevIncomingSequenceNumber := seqAfter s.prevIncomingSequenceNumber segs.length
                  sendAckTimerRunning := true
                  currentIncomingSegmentedMsgLength := none
                  currentIncomingSegmentedPayload := none
                  delivered := s.delivered ++ [segs.flatten] }, none)) ∧
    (segs.flatten.length ≠ L →
      (processPackets s (messageFrames s.prevIncomingSequenceNumber L segs)).2 =
        some (.protocolError "BTP packet payload length does not match message length") ∧
      (processPackets s (messageFrames s.prevIncomingSequenceNumber L segs)).1.delivered =
        s.delivered) := by
  rcases segs with _ | ⟨seg, rest⟩
  · exact absurd rfl hne
  have hseg : seg ≠ [] := hsegs seg (by simp)
  rcases rest with _ | ⟨seg2, rest2⟩
  · constructor
    · intro hOK
      have hOK2 : seg.length = L := by simpa using hOK
      simp only [messageFrames, processPackets,
        processPacket_beginEnd s seg L hseg hclean, if_pos hOK2]
      simp [seqAfter]
    · intro hBAD
      have hBAD2 : ¬(seg.length = L) := by simpa using hBAD
      simp only [messageFrames, processPackets,
        processPacket_beginEnd s seg L hseg hclean, if_neg hBAD2]
      exact ⟨trivial, trivial⟩
  · have hstep := processPacket_begin s seg L hseg hclean
    have hres := processPackets_contFrames (seg2 :: rest2)
      ({ s with prevIncomingSequenceNumber := (s.prevIncomingSequenceNumber + 1) % 256
                sendAckTimerRunning := true
                currentIncomingSegmentedMsgLength := some L
                currentIncomingSegmentedPayload := some seg })
      seg L (by simp) (by simp) (by simp)
      (fun sg hsg => hsegs sg (by simp [hsg]))
    constructor
    · intro hOK
      have hOK2 : seg.length + (seg2 :: rest2).flatten.length = L := by
        simp only [List.flatten_cons, List.length_append] at hOK ⊢
        omega
      have h1 := hres.1 hOK2
      simp only [messageFrames, processPackets, hstep]
      simp only [] at h1
      rw [h1]
      simp [seqAfter, List.append_assoc]
    · intro hBAD
      have hBAD2 : ¬(seg.length + (seg2 :: rest2).flatten.length = L) := by
        simp only [List.flatten_cons, List.length_append] at hBAD ⊢
        omega
      have h2 := hres.2 hBAD2
      simp only [messageFrames, processPackets, hstep]
      simp only [] at h2
      exact h2

/-- The inbound sequence counter after all frames of a list of messages. -/
def msgsSeqAfter (prev : Nat) : List (List (List Nat)) → Nat
  | [] => prev
  | segs :: rest => msgsSeqAfter (seqAfter prev segs.length) rest

theorem processPackets_messagesFrames (msgs : List (List (List Nat))) :
    ∀ (s : BtpSessionHandler),
    s.currentIncomingSegmentedPayload = none →
    s.currentIncomingSegmentedMsgLength = none →
    (∀ m ∈ msgs, m ≠ []) → (∀ m ∈ msgs, ∀ seg ∈ m, seg ≠ []) →
    processPackets s (messagesFrames s.prevIncomingSequenceNumber msgs) =
      ({ s with prevIncomingSequenceNumber := msgsSeqAfter s.prevIncomingSequenceNumber msgs
                sendAckTimerRunning := s.sendAckTimerRunning || !msgs.isEmpty
                delivered := s.delivered ++ msgs.map List.flatten }, none) := by
  induction msgs with
  | nil =>
      intro s _ _ _ _
      simp [processPackets, messagesFrames, msgsSeqAfter]
  | cons segs rest ih =>
      intro s hclean hlen hms hsegs
      have hmsg := (processPackets_messageFrames segs s segs.flatten.length hclean
        (hms segs (by simp)) (fun sg hsg => hsegs segs (by simp) sg hsg)).1 rfl
      have hrest := ih ({ s with
          prevIncomingSequenceNumber := seqAfter s.prevIncomingSequenceNumber segs.length
          sendAckTimerRunning := true
          currentIncomingSegmentedMsgLength := none
          currentIncomingSegmentedPayload := none
          delivered := s.delivered ++ [segs.flatten] })
        (by simp) (by simp)
        (fun m hm => hms m (by simp [hm]))
        (fun m hm => hsegs m (by simp [hm]))
      simp only [messagesFrames, processPackets_append, hmsg]
      simp only [] at hrest
      rw [hrest]
      simp [msgsSeqAfter, List.append_assoc, hlen, hclean]

/-- C8: feeding any sequence of inbound data frames with consecutive
sequence numbers that forms well-formed messages (each message a
beginning frame, zero or more non-empty continuing frames, and an ending
frame whose accumulated length equals the beginning frame's declared
messageLength — `messagesFrames` carries each message's actual total
length), the engine raises no error and invokes the message handler once
per completed message with exactly the concatenation of that message's
segment payloads, in inbound order; and for any single message whose
declared messageLength differs from the accumulated payload length, the
ending frame raises the length-mismatch protocol error and nothing is
delivered. -/
theorem reassembly_delivers (s : BtpSessionHandler) (msgs : List (List (List Nat)))
    (hclean : s.currentIncomingSegmentedPayload = none)
    (hlen : s.currentIncomingSegmentedMsgLength = none)
    (hms : ∀ m ∈ msgs, m ≠ []) (hsegs : ∀ m ∈ msgs, ∀ seg ∈ m, seg ≠ []) :
    ((processPackets s (messagesFrames s.prevIncomingSequenceNumber msgs)).2 = none ∧
     (processPackets s (messagesFrames s.prevIncomingSequenceNumber msgs)).1.delivered =
       s.delivered ++ msgs.map List.flatten) ∧
    (∀ (segs : List (List Nat)) (L : Nat), segs ≠ [] → (∀ seg ∈ segs, seg ≠ []) →
      segs.flatten.length ≠ L →
      (processPackets s (messageFrames s.prevIncomingSequenceNumber L segs)).2 =
        some (.protocolError "BTP packet payload length does not match message length") ∧
      (processPackets s (messageFrames s.prevIncomingSequenceNumber L segs)).1.delivered =
        s.delivered) := by
  constructor
  · have h := processPackets_messagesFrames msgs s hclean hlen hms hsegs
    rw [h]
    exact ⟨rfl, rfl⟩
  · intro segs L hne hsg hmis
    exact (processPackets_messageFrames segs s L hclean hne hsg).2 hmis

theorem reassembly_delivers_witness :
    (processPackets (initialSession 100 6)
        (messagesFrames (initialSession 100 6).prevIncomingSequenceNumber
          [[[1, 2], [3]], [[4]]])).2 = none ∧
    (processPackets (initialSession 100 6)
        (messagesFrames (initialSession 100 6).prevIncomingSequenceNumber
          [[[1, 2], [3]], [[4]]])).1.delivered = [[1, 2, 3], [4]] ∧
    (processPackets (initialSession 100 6)
        (messageFrames (initialSession 100 6).prevIncomingSequenceNumber 7 [[1, 2], [3]])).2 =
      some (.protocolError "BTP packet payload length does not match message length") := by
  have h := reassembly_delivers (initialSession 100 6) [[[1, 2], [3]], [[4]]]
    (by decide) (by decide) (by decide) (by decide)
  refine ⟨h.1.1, ?_, ?_⟩
  · rw [h.1.2]; decide
  · exact (h.2 [[1, 2], [3]] 7 (by decide) (by decide) (by decide)).1
